import Mathlib

/-!
Shallow embedding of the AgentVest risk-management core
(`src/agents/risk_manager.py`): the volatility- and correlation-adjusted
position-risk engine.

Modelling conventions:
* Python floats are modelled as exact rationals (`ℚ`).  `np.sqrt` is
  abstracted as an explicit function parameter `sqrtQ : ℚ → ℚ`, threaded
  through every definition that the source computes a square root in; the
  claims settled below never depend on a particular square-root value.
* A pandas price DataFrame is modelled as the chronologically ordered list
  of its rows (`prices_to_df` sorts by timestamp; the series delivered to
  the engine is already sorted with no duplicate timestamps, per the data
  model).  Only the `close` column and the timestamp index are ever read.
* `Series.pct_change().dropna()` on an all-numeric series of length n
  yields the n−1 consecutive relative changes; `Series.std()` is the
  sample standard deviation (ddof = 1).
-/

namespace AgentVest

/-- `CRYPTO_RISK_FACTORS["max_position_size"]`: 15% baseline per position. -/
def max_position_size : ℚ := 15/100

/-- `CRYPTO_RISK_FACTORS["safe_volatility_threshold"]`: 3% daily volatility. -/
def safe_volatility_threshold : ℚ := 3/100

/-- Arithmetic mean of a list of rationals (`Series.mean()`); 0 on the empty
list, which the engine never takes the mean of. -/
def listMean (xs : List ℚ) : ℚ := xs.sum / (xs.length : ℚ)

/-- Sample variance with ddof = 1, the square of pandas `Series.std()`.
For fewer than two samples the rational convention divides by zero and
returns 0; the engine only evaluates it on two or more samples. -/
def sampleVar (xs : List ℚ) : ℚ :=
  ((xs.map (fun x => (x - listMean xs) ^ 2)).sum) / ((xs.length : ℚ) - 1)

/-- pandas `Series.std()` (sample standard deviation), with the square root
abstracted as `sqrtQ`. -/
def sampleStd (sqrtQ : ℚ → ℚ) (xs : List ℚ) : ℚ := sqrtQ (sampleVar xs)

/-- `Series.pct_change().dropna()`: consecutive relative changes of a list;
the result has one element fewer than the input. -/
def pctChange : List ℚ → List ℚ
  | [] => []
  | [_] => []
  | a :: b :: rest => (b - a) / a :: pctChange (b :: rest)

/-- `Series.tail(k)`: the last `k` elements (the whole list when `k` is at
least its length). -/
def takeLast (k : ℕ) (xs : List ℚ) : List ℚ := xs.drop (xs.length - k)

/-- The full windows of `Series.rolling(window := w)`: all `w`-element
contiguous sublists, in order.  `rolling(w).std().dropna()` is exactly the
sample standard deviation of each full window (the first `w − 1` undefined
leading values are dropped). -/
def rollingWindows (w : ℕ) (xs : List ℚ) : List (List ℚ) :=
  (List.range (xs.length + 1 - w)).map (fun i => (xs.drop i).take w)

/-- The record returned by `calculate_volatility_metrics` (and the agent's
own fallback dictionaries). -/
structure VolatilityMetrics where
  daily_volatility : ℚ
  annualized_volatility : ℚ
  volatility_percentile : ℚ
  data_points : ℕ
deriving DecidableEq

/-- `calculate_volatility_metrics(prices_df, lookback_days)` from
`risk_manager.py`, over the chronological list of closes.  The terminal
`np.isnan` replacements of the source are identities in the exact rational
model (every branch below is defined), so they are not reproduced. -/
def calculate_volatility_metrics (sqrtQ : ℚ → ℚ) (closes : List ℚ)
    (lookback_days : ℕ) : VolatilityMetrics :=
  if closes.length < 2 then
    { daily_volatility := safe_volatility_threshold
      annualized_volatility := safe_volatility_threshold * sqrtQ 365
      volatility_percentile := 100
      data_points := closes.length }
  else
    let daily_returns := pctChange closes
    if daily_returns.length < 2 then
      { daily_volatility := safe_volatility_threshold
        annualized_volatility := safe_volatility_threshold * sqrtQ 365
        volatility_percentile := 100
        data_points := daily_returns.length }
    else
      let recent_returns := takeLast (min lookback_days daily_returns.length) daily_returns
      let daily_vol := sampleStd sqrtQ recent_returns
      let annualized_vol := daily_vol * sqrtQ 365
      let current_vol_percentile : ℚ :=
        if 30 ≤ daily_returns.length then
          let rolling_vol := (rollingWindows 30 daily_returns).map (sampleStd sqrtQ)
          if 0 < rolling_vol.length then
            ((rolling_vol.filter (fun v => decide (v ≤ daily_vol))).length : ℚ)
              / (rolling_vol.length : ℚ) * 100
          else 50
        else 50
      { daily_volatility := daily_vol
        annualized_volatility := annualized_vol
        volatility_percentile := current_vol_percentile
        data_points := recent_returns.length }

/-- `calculate_volatility_adjusted_limit(annualized_volatility)`. -/
def calculate_volatility_adjusted_limit (annualized_volatility : ℚ) : ℚ :=
  let base_limit := max_position_size
  let vol_multiplier : ℚ :=
    if annualized_volatility < 25/100 then 1
    else if annualized_volatility < 50/100 then
      85/100 - (annualized_volatility - 25/100) * (4/10)
    else if annualized_volatility < 75/100 then
      65/100 - (annualized_volatility - 50/100) * (6/10)
    else if annualized_volatility < 1 then 30/100
    else 13/100
  base_limit * max (13/100) (min 1 vol_multiplier)

/-- `calculate_correlation_multiplier(avg_correlation)`. -/
def calculate_correlation_multiplier (avg_correlation : ℚ) : ℚ :=
  if 80/100 ≤ avg_correlation then 70/100
  else if 60/100 ≤ avg_correlation then 85/100
  else if 40/100 ≤ avg_correlation then 1
  else if 20/100 ≤ avg_correlation then 105/100
  else 110/100

/-- One row of a price DataFrame: the timestamp index and the `close`
column (the only fields `risk_management_agent` reads). -/
structure PricePoint where
  time : ℕ
  close : ℚ
deriving DecidableEq

/-- One entry of `portfolio["positions"]`: `{"long": …, "short": …}`. -/
structure Position where
  long : ℚ
  short : ℚ
deriving DecidableEq

/-- `portfolio`: cash and the positions mapping (modelled as an association
list, as a Python dict has unique keys). -/
structure Portfolio where
  cash : ℚ
  positions : List (String × Position)
deriving DecidableEq

/-- The inputs `risk_management_agent` reads from `state`: the requested
tickers, the portfolio snapshot, and the price series the provider returns
per symbol (`get_prices`; an absent entry is the empty series). -/
structure EngineInput where
  tickers : List String
  portfolio : Portfolio
  priceData : List (String × List PricePoint)
deriving DecidableEq

/-- The price series fetched for a ticker (`get_prices(...)`, `[]` when the
provider has nothing for it). -/
def getPriceList (inp : EngineInput) (t : String) : List PricePoint :=
  ((inp.priceData.find? (fun sp => sp.1 == t)).map (fun sp => sp.2)).getD []

/-- `portfolio.get("positions", {}).get(ticker, {})` with
`.get("long", 0)` / `.get("short", 0)` defaults. -/
def lookupPosition (inp : EngineInput) (t : String) : Position :=
  ((inp.portfolio.positions.find? (fun tp => tp.1 == t)).map (fun tp => tp.2)).getD
    { long := 0, short := 0 }

/-- `prices_df["close"].iloc[-1]`: the last close of a series. -/
def lastClose (ps : List PricePoint) : ℚ :=
  ((ps.map PricePoint.close).getLast?).getD 0

/-- The entry of `current_prices` the fetch loop records for a ticker:
absent when the provider returned no rows, the last close when at least two
rows exist, and `0` for a single-row series (the "insufficient price data"
branch). -/
def currentPriceEntry (inp : EngineInput) (t : String) : Option ℚ :=
  match getPriceList inp t with
  | [] => none
  | [_] => some 0
  | ps => some (lastClose ps)

/-- The entry of `volatility_data` the fetch loop records for a ticker.
The two agent-level fallbacks (no rows / a single row) both use a 5% daily
volatility annualized with √252; only the ≥ 2 row branch calls
`calculate_volatility_metrics` (which falls back to 3% daily and √365). -/
def volatilityDataEntry (sqrtQ : ℚ → ℚ) (ps : List PricePoint) : VolatilityMetrics :=
  match ps with
  | [] =>
    { daily_volatility := 5/100
      annualized_volatility := 5/100 * sqrtQ 252
      volatility_percentile := 100
      data_points := 0 }
  | [p] =>
    { daily_volatility := 5/100
      annualized_volatility := 5/100 * sqrtQ 252
      volatility_percentile := 100
      data_points := [p].length }
  | ps =>
    calculate_volatility_metrics sqrtQ (ps.map PricePoint.close) 60

/-- `prices_df["close"].pct_change().dropna()` keeping the timestamp index:
each return is labelled with the timestamp of its later row. -/
def returnsWithTime : List PricePoint → List (ℕ × ℚ)
  | [] => []
  | [_] => []
  | a :: b :: rest => (b.time, (b.close - a.close) / a.close) :: returnsWithTime (b :: rest)

/-- Whether the fetch loop stores a ticker in `returns_by_ticker`: at least
two price rows and a non-empty return series. -/
def hasReturns (inp : EngineInput) (t : String) : Prop :=
  1 < (getPriceList inp t).length ∧ 0 < (returnsWithTime (getPriceList inp t)).length

instance (inp : EngineInput) (t : String) : Decidable (hasReturns inp t) := by
  unfold hasReturns; infer_instance

/-- The tickers holding a return series, i.e. the columns of the joint
returns DataFrame.  The source iterates a Python set
(`set(tickers) | set(positions)`), whose order is unspecified; we fix the
order "requested tickers first, then position-only tickers", which the
correlation aggregates consumed below are invariant under. -/
def returnTickers (inp : EngineInput) : List String :=
  ((inp.tickers ++ inp.portfolio.positions.map (fun tp => tp.1)).dedup).filter
    (fun t => decide (hasReturns inp t))

/-- The timestamps of the aligned returns matrix:
`pd.DataFrame(returns_by_ticker).dropna(how="any")` keeps exactly the rows
whose timestamp appears in every column's return series. -/
def commonTimes (inp : EngineInput) : List ℕ :=
  match returnTickers inp with
  | [] => []
  | t :: ts =>
    ((returnsWithTime (getPriceList inp t)).map (fun r => r.1)).filter
      (fun τ => ts.all
        (fun u => ((returnsWithTime (getPriceList inp u)).map (fun r => r.1)).contains τ))

/-- Whether `correlation_matrix` is not `None`: at least two tickers with
returns, and the aligned matrix has at least 5 rows (and, equivalently,
at least 2 columns). -/
def correlationMatrixExists (inp : EngineInput) : Prop :=
  2 ≤ (returnTickers inp).length ∧ 5 ≤ (commonTimes inp).length

instance (inp : EngineInput) : Decidable (correlationMatrixExists inp) := by
  unfold correlationMatrixExists; infer_instance

/-- A ticker's column of the aligned returns matrix, in row order. -/
def alignedReturns (inp : EngineInput) (t : String) : List ℚ :=
  (commonTimes inp).map (fun τ =>
    (((returnsWithTime (getPriceList inp t)).find? (fun r => r.1 == τ)).map
      (fun r => r.2)).getD 0)

/-- Pearson correlation of two aligned columns, as `DataFrame.corr`
computes it: Σ dx·dy over the root of (Σ dx²)·(Σ dy²). -/
def pearson (sqrtQ : ℚ → ℚ) (xs ys : List ℚ) : ℚ :=
  let dx := xs.map (fun x => x - listMean xs)
  let dy := ys.map (fun y => y - listMean ys)
  (List.zipWith (fun a b => a * b) dx dy).sum
    / sqrtQ ((dx.map (fun d => d ^ 2)).sum * (dy.map (fun d => d ^ 2)).sum)

/-- `active_positions`: tickers with non-zero absolute net exposure.
(A Python set; list order is irrelevant to the aggregates below except for
top-3 tie order.) -/
def activePositions (inp : EngineInput) : List String :=
  (inp.portfolio.positions.filter
    (fun tp => decide (0 < |tp.2.long - tp.2.short|))).map (fun tp => tp.1)

/-- Insert into a list sorted by descending correlation
(`Series.sort_values(ascending := False)`). -/
def insertDesc (x : String × ℚ) : List (String × ℚ) → List (String × ℚ)
  | [] => [x]
  | y :: ys => if y.2 ≤ x.2 then x :: y :: ys else y :: insertDesc x ys

/-- Sort ticker/correlation pairs by descending correlation. -/
def sortDesc (l : List (String × ℚ)) : List (String × ℚ) :=
  l.foldr insertDesc []

/-- Maximum of a list of rationals (`Series.max()`); only taken on
non-empty lists. -/
def listMax (xs : List ℚ) : ℚ := xs.foldl max (xs.headD 0)

/-- The `corr_metrics` dictionary of a RiskAssessment. -/
structure CorrelationMetrics where
  avg_correlation_with_active : Option ℚ
  max_correlation_with_active : Option ℚ
  top_correlated_tickers : List (String × ℚ)
deriving DecidableEq

/-- The correlation block of the limit loop for one requested ticker: the
`corr_metrics` dictionary together with `corr_multiplier`.  In the exact
rational model no correlation is NaN, so the source's `series.dropna()`
keeps every entry. -/
def correlationStep (sqrtQ : ℚ → ℚ) (inp : EngineInput) (t : String) :
    CorrelationMetrics × ℚ :=
  let neutral : CorrelationMetrics :=
    { avg_correlation_with_active := none
      max_correlation_with_active := none
      top_correlated_tickers := [] }
  if correlationMatrixExists inp ∧ t ∈ returnTickers inp then
    let comparable0 := (activePositions inp).filter
      (fun u => decide (u ∈ returnTickers inp ∧ u ≠ t))
    let comparable :=
      if comparable0 = [] then (returnTickers inp).filter (fun u => u != t)
      else comparable0
    if comparable = [] then (neutral, 1)
    else
      let series := comparable.map
        (fun u => (u, pearson sqrtQ (alignedReturns inp t) (alignedReturns inp u)))
      let vals := series.map (fun su => su.2)
      let avg_corr := listMean vals
      ({ avg_correlation_with_active := some avg_corr
         max_correlation_with_active := some (listMax vals)
         top_correlated_tickers := (sortDesc series).take 3 },
       calculate_correlation_multiplier avg_corr)
  else (neutral, 1)

/-- `total_portfolio_value`: cash, then for every position whose ticker has
an entry in `current_prices`, add the long market value and subtract the
short market value. -/
def totalPortfolioValue (inp : EngineInput) : ℚ :=
  inp.portfolio.positions.foldl
    (fun acc tp =>
      match currentPriceEntry inp tp.1 with
      | some p => acc + tp.2.long * p - tp.2.short * p
      | none => acc)
    inp.portfolio.cash

/-- The `reasoning` dictionary of a RiskAssessment: either the error
marker of the missing-data branch, or the full audit record
(portfolio_value, current_position_value, base_position_limit_pct,
correlation_multiplier, combined_position_limit_pct, position_limit,
remaining_limit, available_cash).  The formatted `risk_adjustment` display
string is presentation only and not modelled. -/
inductive Reasoning where
  | err : String → Reasoning
  | ok : ℚ → ℚ → ℚ → ℚ → ℚ → ℚ → ℚ → ℚ → Reasoning
deriving DecidableEq

/-- One entry of the output `risk_analysis` mapping.  The missing-data
branch of the source builds a dictionary without `volatility_metrics` and
`correlation_metrics` keys; absence is modelled with `Option`. -/
structure RiskAssessment where
  remaining_position_limit : ℚ
  current_price : ℚ
  volatility_metrics : Option VolatilityMetrics
  correlation_metrics : Option CorrelationMetrics
  reasoning : Reasoning
deriving DecidableEq

/-- The record the limit loop emits for a ticker with no valid price. -/
def missingDataRecord : RiskAssessment :=
  { remaining_position_limit := 0
    current_price := 0
    volatility_metrics := none
    correlation_metrics := none
    reasoning := Reasoning.err "Missing price data for risk calculation" }

/-- The full assessment of one requested ticker with valid price `p`.
`vol_data` always holds the fetch-loop entry for the ticker (every
requested ticker was processed by the fetch loop), so the `.get(…)`
defaults of the source never fire and are not modelled. -/
def assessFull (sqrtQ : ℚ → ℚ) (inp : EngineInput) (t : String) (p : ℚ) :
    RiskAssessment :=
  let position := lookupPosition inp t
  let current_position_value := |position.long * p - position.short * p|
  let vol_data := volatilityDataEntry sqrtQ (getPriceList inp t)
  let vol_adjusted_limit_pct :=
    calculate_volatility_adjusted_limit vol_data.annualized_volatility
  let corr := correlationStep sqrtQ inp t
  let combined_limit_pct := vol_adjusted_limit_pct * corr.2
  let position_limit := totalPortfolioValue inp * combined_limit_pct
  let remaining_position_limit := position_limit - current_position_value
  { remaining_position_limit := min remaining_position_limit inp.portfolio.cash
    current_price := p
    volatility_metrics := some vol_data
    correlation_metrics := some corr.1
    reasoning := Reasoning.ok (totalPortfolioValue inp) current_position_value
      vol_adjusted_limit_pct corr.2 combined_limit_pct position_limit
      remaining_position_limit inp.portfolio.cash }

/-- The limit loop's body for one requested ticker
(`if ticker not in current_prices or current_prices[ticker] <= 0` …). -/
def assess (sqrtQ : ℚ → ℚ) (inp : EngineInput) (t : String) : RiskAssessment :=
  match currentPriceEntry inp t with
  | none => missingDataRecord
  | some p => if p ≤ 0 then missingDataRecord else assessFull sqrtQ inp t p

/-- The output `risk_analysis` mapping of `risk_management_agent`: one
RiskAssessment per requested ticker, nothing for other tickers. -/
def riskAnalysis (sqrtQ : ℚ → ℚ) (inp : EngineInput) (t : String) :
    Option RiskAssessment :=
  if t ∈ inp.tickers then some (assess sqrtQ inp t) else none

/-! Concrete instantiations used to exercise the engine.  `sqrtZero` is one
admissible interpretation of the abstract square root; the facts evaluated
at it never depend on square-root values (they multiply it by 0 or compare
equal arguments). -/

/-- A degenerate square-root interpretation for concrete evaluations. -/
def sqrtZero : ℚ → ℚ := fun _ => 0

/-- One requested ticker with two price rows, ample cash, no positions. -/
def exBase : EngineInput :=
  { tickers := ["A"]
    portfolio := { cash := 100000, positions := [] }
    priceData := [("A", [{ time := 0, close := 100 }, { time := 1, close := 110 }])] }

/-- The assessment the engine computes for `exBase`: two closes 100 → 110
give a single return, hence the in-estimator fallback volatility (3%
daily, annualized by `sqrtZero`), multiplier 1, a 15% limit of the
100000 cash. -/
def recBase : RiskAssessment :=
  { remaining_position_limit := 15000
    current_price := 110
    volatility_metrics := some ⟨3/100, 0, 100, 1⟩
    correlation_metrics := some ⟨none, none, []⟩
    reasoning := Reasoning.ok 100000 0 (3/20) 1 (3/20) 15000 15000 100000 }

/-- A position of 1000 long units at price 110 against only 100 cash: the
exposure dwarfs the risk budget. -/
def exOver : EngineInput :=
  { tickers := ["A"]
    portfolio := { cash := 100, positions := [("A", { long := 1000, short := 0 })] }
    priceData := [("A", [{ time := 0, close := 100 }, { time := 1, close := 110 }])] }

/-- The assessment for `exOver`: net liquidation value 110100, limit
16515, exposure 110000, so the remaining limit is −93485. -/
def recOver : RiskAssessment :=
  { remaining_position_limit := -93485
    current_price := 110
    volatility_metrics := some ⟨3/100, 0, 100, 1⟩
    correlation_metrics := some ⟨none, none, []⟩
    reasoning := Reasoning.ok 110100 110000 (3/20) 1 (3/20) 16515 (-93485) 100 }

/-- An invalid PortfolioState: negative cash. -/
def exInvalid : EngineInput :=
  { tickers := ["A"]
    portfolio := { cash := -100, positions := [] }
    priceData := [("A", [{ time := 0, close := 100 }, { time := 1, close := 110 }])] }

/-- The assessment for `exInvalid`: the negative cash flows through the
net-liquidation value (−100), the dollar limit (−15) and the cash cap
(−100) of an ordinary computed record. -/
def recInvalid : RiskAssessment :=
  { remaining_position_limit := -100
    current_price := 110
    volatility_metrics := some ⟨3/100, 0, 100, 1⟩
    correlation_metrics := some ⟨none, none, []⟩
    reasoning := Reasoning.ok (-100) 0 (3/20) 1 (3/20) (-15) (-15) (-100) }

/-- Two requested tickers; the provider has rows for "A" only. -/
def exMissing : EngineInput :=
  { tickers := ["A", "B"]
    portfolio := { cash := 1000, positions := [] }
    priceData := [("A", [{ time := 0, close := 100 }, { time := 1, close := 110 }])] }

/-- The net-liquidation example of the spec: cash 10000, one position of 2
long units, current price 500. -/
def exNet : EngineInput :=
  { tickers := ["A"]
    portfolio := { cash := 10000, positions := [("A", { long := 2, short := 0 })] }
    priceData := [("A", [{ time := 0, close := 450 }, { time := 1, close := 500 }])] }

/-- A requested ticker with two price rows whose last close is negative:
it is recorded in `current_prices` but fails the `<= 0` validity guard. -/
def exNegPrice : EngineInput :=
  { tickers := ["A"]
    portfolio := { cash := 1000, positions := [] }
    priceData := [("A", [{ time := 0, close := 100 }, { time := 1, close := -5 }])] }

/-- A requested ticker whose price series has exactly one row. -/
def exSingle : EngineInput :=
  { tickers := ["A"]
    portfolio := { cash := 1000, positions := [] }
    priceData := [("A", [{ time := 0, close := 100 }])] }

/-- A constant price series with 31 rows, hence 30 returns: long enough
for the rolling-percentile branch. -/
def closesLong : List ℚ := List.replicate 31 1

/-- A 4-row price series: 3 returns, too few for the percentile branch. -/
def closesShort : List ℚ := [1, 2, 3, 4]

/-! Helper lemmas shared by the claim theorems. -/

/-- A return series has one element fewer than its price series. -/
lemma pctChange_length (xs : List ℚ) : (pctChange xs).length = xs.length - 1 := by
  induction xs with
  | nil => rfl
  | cons a t ih =>
    cases t with
    | nil => rfl
    | cons b r =>
      simp only [pctChange, List.length_cons] at ih ⊢
      omega

/-- The number of full rolling windows. -/
lemma rollingWindows_length (w : ℕ) (xs : List ℚ) :
    (rollingWindows w xs).length = xs.length + 1 - w := by
  simp [rollingWindows]

/-- Folding the net-liquidation accumulator equals cash plus the sum of
the per-position signed market values. -/
lemma foldl_value_sum (f : String → Option ℚ) :
    ∀ (l : List (String × Position)) (c : ℚ),
      l.foldl (fun acc tp =>
        match f tp.1 with
        | some p => acc + tp.2.long * p - tp.2.short * p
        | none => acc) c
      = c + (l.map (fun tp =>
          match f tp.1 with
          | some p => tp.2.long * p - tp.2.short * p
          | none => 0)).sum := by
  intro l
  induction l with
  | nil => intro c; simp
  | cons hd tl ih =>
    intro c
    simp only [List.foldl_cons, List.map_cons, List.sum_cons]
    rcases hf : f hd.1 with _ | p <;> simp only [hf] <;> rw [ih] <;> ring

/-- Every computed (non-error) output record satisfies the limit-loop
identities: the combined percentage is the product of base and
correlation multiplier, the dollar limit scales the portfolio value, the
remaining limit nets out current exposure, the recorded cash is the
portfolio's cash, and the final limit is the min of remaining limit and
cash. -/
lemma riskAnalysis_ok_fields (sqrtQ : ℚ → ℚ) (inp : EngineInput) (t : String)
    (a : RiskAssessment) (pv cpv b cm comb pl rem ac : ℚ)
    (h1 : riskAnalysis sqrtQ inp t = some a)
    (h2 : a.reasoning = Reasoning.ok pv cpv b cm comb pl rem ac) :
    comb = b * cm ∧ pl = pv * comb ∧ rem = pl - cpv ∧
    ac = inp.portfolio.cash ∧ pv = totalPortfolioValue inp ∧
    a.remaining_position_limit = min rem ac := by
  unfold riskAnalysis at h1
  split at h1
  · rw [Option.some.injEq] at h1
    subst h1
    unfold assess at h2 ⊢
    rcases hcp : currentPriceEntry inp t with _ | p
    · rw [hcp] at h2
      simp [missingDataRecord] at h2
    · rw [hcp] at h2
      by_cases hp : p ≤ 0
      · simp only [if_pos hp] at h2
        simp [missingDataRecord] at h2
      · simp only [if_neg hp] at h2 ⊢
        unfold assessFull at h2 ⊢
        simp only [Reasoning.ok.injEq] at h2
        obtain ⟨e1, e2, e3, e4, e5, e6, e7, e8⟩ := h2
        subst e1; subst e2; subst e3; subst e4; subst e5; subst e6; subst e7; subst e8
        exact ⟨rfl, rfl, rfl, rfl, rfl, rfl⟩
  · exact absurd h1 (by simp)

/-- The engine's full output on `exBase`. -/
lemma riskAnalysis_exBase : riskAnalysis sqrtZero exBase "A" = some recBase := by
  norm_num [riskAnalysis, assess, assessFull, currentPriceEntry, getPriceList, lastClose,
    volatilityDataEntry, calculate_volatility_metrics, pctChange, sampleStd, sampleVar,
    listMean, takeLast, calculate_volatility_adjusted_limit, correlationStep,
    correlationMatrixExists, returnTickers, hasReturns, returnsWithTime, activePositions,
    totalPortfolioValue, lookupPosition, max_position_size, safe_volatility_threshold,
    commonTimes, alignedReturns, pearson, listMax, sortDesc, insertDesc,
    List.dedup_cons_of_mem, List.dedup_cons_of_not_mem,
    exBase, recBase, sqrtZero]

/-- The engine's full output on `exOver`: the position's exposure exceeds
its budget and the remaining limit is negative. -/
lemma riskAnalysis_exOver : riskAnalysis sqrtZero exOver "A" = some recOver := by
  norm_num [riskAnalysis, assess, assessFull, currentPriceEntry, getPriceList, lastClose,
    volatilityDataEntry, calculate_volatility_metrics, pctChange, sampleStd, sampleVar,
    listMean, takeLast, calculate_volatility_adjusted_limit, correlationStep,
    correlationMatrixExists, returnTickers, hasReturns, returnsWithTime, activePositions,
    totalPortfolioValue, lookupPosition, max_position_size, safe_volatility_threshold,
    commonTimes, alignedReturns, pearson, listMax, sortDesc, insertDesc,
    List.dedup_cons_of_mem, List.dedup_cons_of_not_mem,
    exOver, recOver, sqrtZero]

/-- The engine's full output on `exInvalid`: the negative-cash portfolio is
processed through the ordinary computation path. -/
lemma riskAnalysis_exInvalid : riskAnalysis sqrtZero exInvalid "A" = some recInvalid := by
  norm_num [riskAnalysis, assess, assessFull, currentPriceEntry, getPriceList, lastClose,
    volatilityDataEntry, calculate_volatility_metrics, pctChange, sampleStd, sampleVar,
    listMean, takeLast, calculate_volatility_adjusted_limit, correlationStep,
    correlationMatrixExists, returnTickers, hasReturns, returnsWithTime, activePositions,
    totalPortfolioValue, lookupPosition, max_position_size, safe_volatility_threshold,
    commonTimes, alignedReturns, pearson, listMax, sortDesc, insertDesc,
    List.dedup_cons_of_mem, List.dedup_cons_of_not_mem,
    exInvalid, recInvalid, sqrtZero]

/-- C1: for annualized volatility 0.60 the tier formula yields a base
multiplier of exactly 0.59, so the base percentage is 0.15·0.59 = 0.0885;
average correlation 0.65 maps to multiplier 0.85; their product — the
combined percentage, which the engine never re-clamps — is 0.075225, and
on a 100000 portfolio the position limit is 7522.5.  The final conjunct
states the no-re-clamping rule in general: in every computed assessment
the combined percentage equals base percentage times correlation
multiplier. -/
theorem scenarioB_volatility_correlation_limits :
    calculate_volatility_adjusted_limit (60/100) = 15/100 * (59/100)
    ∧ calculate_correlation_multiplier (65/100) = 85/100
    ∧ calculate_volatility_adjusted_limit (60/100)
        * calculate_correlation_multiplier (65/100) = 75225/1000000
    ∧ 100000 * (calculate_volatility_adjusted_limit (60/100)
        * calculate_correlation_multiplier (65/100)) = 75225/10
    ∧ ∀ (sqrtQ : ℚ → ℚ) (inp : EngineInput) (t : String) (a : RiskAssessment)
        (pv cpv b cm comb pl rem ac : ℚ),
        riskAnalysis sqrtQ inp t = some a →
        a.reasoning = Reasoning.ok pv cpv b cm comb pl rem ac →
        comb = b * cm := by
  refine ⟨?_, ?_, ?_, ?_, ?_⟩
  · norm_num [calculate_volatility_adjusted_limit, max_position_size]
  · norm_num [calculate_correlation_multiplier]
  · norm_num [calculate_volatility_adjusted_limit, calculate_correlation_multiplier,
      max_position_size]
  · norm_num [calculate_volatility_adjusted_limit, calculate_correlation_multiplier,
      max_position_size]
  · intro sqrtQ inp t a pv cpv b cm comb pl rem ac h1 h2
    exact (riskAnalysis_ok_fields sqrtQ inp t a pv cpv b cm comb pl rem ac h1 h2).1

/-- Witness for C1's universally quantified conjunct, instantiated on
`exBase`. -/
theorem scenarioB_volatility_correlation_limits_witness :
    (3/20 : ℚ) = 3/20 * 1 :=
  scenarioB_volatility_correlation_limits.2.2.2.2 sqrtZero exBase "A" recBase
    100000 0 (3/20) 1 (3/20) 15000 15000 100000 riskAnalysis_exBase rfl

/-- C2: in every computed assessment the final limit is
min(remaining_limit, available_cash) with remaining_limit =
position_limit − current_position_value, hence it never exceeds the
portfolio's cash; and it can be negative when the position already
exceeds its budget, as `exOver` shows. -/
theorem final_limit_capped_by_cash :
    (∀ (sqrtQ : ℚ → ℚ) (inp : EngineInput) (t : String) (a : RiskAssessment)
        (pv cpv b cm comb pl rem ac : ℚ),
        riskAnalysis sqrtQ inp t = some a →
        a.reasoning = Reasoning.ok pv cpv b cm comb pl rem ac →
        rem = pl - cpv ∧ a.remaining_position_limit = min rem ac ∧
        ac = inp.portfolio.cash ∧
        a.remaining_position_limit ≤ inp.portfolio.cash)
    ∧ riskAnalysis sqrtZero exOver "A" = some recOver
    ∧ recOver.remaining_position_limit < 0 := by
  refine ⟨?_, riskAnalysis_exOver, by norm_num [recOver]⟩
  intro sqrtQ inp t a pv cpv b cm comb pl rem ac h1 h2
  obtain ⟨_, _, e3, e4, _, e6⟩ :=
    riskAnalysis_ok_fields sqrtQ inp t a pv cpv b cm comb pl rem ac h1 h2
  refine ⟨e3, e6, e4, ?_⟩
  rw [e6, ← e4]
  exact min_le_right _ _

/-- Witness for C2's universally quantified conjunct, instantiated on
`exBase`. -/
theorem final_limit_capped_by_cash_witness :
    (15000 : ℚ) = 15000 - 0 ∧ recBase.remaining_position_limit = min 15000 100000 ∧
    (100000 : ℚ) = exBase.portfolio.cash ∧
    recBase.remaining_position_limit ≤ exBase.portfolio.cash :=
  final_limit_capped_by_cash.1 sqrtZero exBase "A" recBase
    100000 0 (3/20) 1 (3/20) 15000 15000 100000 riskAnalysis_exBase rfl

/-- C7: the portfolio value is the net liquidation value — cash plus the
sum, over positions whose ticker has a recorded current price, of long
market value minus short market value (positions with no recorded price
contribute nothing); and on `exNet` (cash 10000, 2 long units at price
500) it is 11000. -/
theorem net_liquidation_value_formula :
    (∀ inp : EngineInput,
      totalPortfolioValue inp = inp.portfolio.cash +
        (inp.portfolio.positions.map (fun tp =>
          match currentPriceEntry inp tp.1 with
          | some p => tp.2.long * p - tp.2.short * p
          | none => 0)).sum)
    ∧ totalPortfolioValue exNet = 11000 := by
  constructor
  · intro inp
    exact foldl_value_sum (currentPriceEntry inp) inp.portfolio.positions
      inp.portfolio.cash
  · norm_num [totalPortfolioValue, currentPriceEntry, getPriceList, lastClose, exNet]

/-- C8: the volatility multiplier is 1.00 strictly below the 0.25
boundary and exactly 0.85 at 0.25; and for every input the limit is the
15% base times a multiplier clamped to [0.13, 1]. -/
theorem volatility_tier_boundary_and_clamp :
    (∀ v : ℚ, v < 25/100 → calculate_volatility_adjusted_limit v = 15/100 * 1)
    ∧ calculate_volatility_adjusted_limit (25/100) = 15/100 * (85/100)
    ∧ (∀ v : ℚ, ∃ m : ℚ, 13/100 ≤ m ∧ m ≤ 1 ∧
        calculate_volatility_adjusted_limit v = 15/100 * m) := by
  refine ⟨?_, ?_, ?_⟩
  · intro v hv
    simp only [calculate_volatility_adjusted_limit, max_position_size, if_pos hv]
    rw [min_self, max_eq_right (by norm_num : (13:ℚ)/100 ≤ 1)]
  · norm_num [calculate_volatility_adjusted_limit, max_position_size]
  · intro v
    refine ⟨max (13/100) (min 1 (if v < 25/100 then 1
        else if v < 50/100 then 85/100 - (v - 25/100) * (4/10)
        else if v < 75/100 then 65/100 - (v - 50/100) * (6/10)
        else if v < 1 then 30/100 else 13/100)),
      le_max_left _ _, max_le (by norm_num) (min_le_left _ _), ?_⟩
    simp only [calculate_volatility_adjusted_limit, max_position_size]

/-- Witness for C8's boundary conjunct at volatility 0.20. -/
theorem volatility_tier_boundary_and_clamp_witness :
    calculate_volatility_adjusted_limit (20/100) = 15/100 * 1 :=
  volatility_tier_boundary_and_clamp.1 (20/100) (by norm_num)

/-- C3 counterexample: the volatility record stored for a symbol with no
price rows (DataUnavailable) is not the estimator's 0.03·√365 fallback —
its daily volatility is 0.05, not 0.03. -/
theorem data_unavailable_fallback_differs :
    volatilityDataEntry sqrtZero [] ≠
      { daily_volatility := 3/100
        annualized_volatility := 3/100 * sqrtZero 365
        volatility_percentile := 100
        data_points := 0 } := by
  norm_num [volatilityDataEntry, sqrtZero, VolatilityMetrics.mk.injEq]

/-- C3 amended: inside the estimator, a price series with fewer than 2
rows, or a return series with fewer than 2 returns, yields the fallback
(0.03 daily, 0.03·√365 annualized, percentile 100, sample count the
respective series length); but a symbol with no price rows at all gets a
different agent-level fallback: 0.05 daily, 0.05·√252 annualized,
percentile 100, 0 data points. -/
theorem volatility_fallback_values :
    (∀ (sq : ℚ → ℚ) (closes : List ℚ), closes.length < 2 →
      calculate_volatility_metrics sq closes 60 =
        { daily_volatility := 3/100, annualized_volatility := 3/100 * sq 365,
          volatility_percentile := 100, data_points := closes.length })
    ∧ (∀ (sq : ℚ → ℚ) (closes : List ℚ), ¬ closes.length < 2 →
      (pctChange closes).length < 2 →
      calculate_volatility_metrics sq closes 60 =
        { daily_volatility := 3/100, annualized_volatility := 3/100 * sq 365,
          volatility_percentile := 100, data_points := (pctChange closes).length })
    ∧ (∀ sq : ℚ → ℚ, volatilityDataEntry sq [] =
        { daily_volatility := 5/100, annualized_volatility := 5/100 * sq 252,
          volatility_percentile := 100, data_points := 0 }) := by
  refine ⟨?_, ?_, ?_⟩
  · intro sq closes h
    simp only [calculate_volatility_metrics, if_pos h, safe_volatility_threshold]
  · intro sq closes h1 h2
    simp only [calculate_volatility_metrics, if_neg h1, if_pos h2,
      safe_volatility_threshold]
  · intro sq
    rfl

/-- Witness for C3's amended fallbacks: a 1-row series and a 2-row
series. -/
theorem volatility_fallback_values_witness :
    calculate_volatility_metrics sqrtZero [1] 60 =
      { daily_volatility := 3/100, annualized_volatility := 3/100 * sqrtZero 365,
        volatility_percentile := 100, data_points := [(1:ℚ)].length }
    ∧ calculate_volatility_metrics sqrtZero [1, 2] 60 =
      { daily_volatility := 3/100, annualized_volatility := 3/100 * sqrtZero 365,
        volatility_percentile := 100, data_points := (pctChange [1, 2]).length } :=
  ⟨volatility_fallback_values.1 sqrtZero [1] (by norm_num),
   volatility_fallback_values.2.1 sqrtZero [1, 2] (by norm_num)
     (by simp [pctChange])⟩

/-- C5 counterexample: the record emitted for a requested symbol with no
price data has no volatility_metrics and no correlation_metrics at all —
the fields are absent, not populated with fallbacks. -/
theorem missing_symbol_record_lacks_metrics :
    riskAnalysis sqrtZero exMissing "B" = some missingDataRecord ∧
    missingDataRecord.volatility_metrics = none ∧
    missingDataRecord.correlation_metrics = none := by
  have hps : getPriceList exMissing "B" = [] := by simp [getPriceList, exMissing]
  have hcp : currentPriceEntry exMissing "B" = none := by
    unfold currentPriceEntry; rw [hps]
  refine ⟨?_, rfl, rfl⟩
  unfold riskAnalysis assess
  rw [if_pos (by simp [exMissing] : "B" ∈ exMissing.tickers), hcp]

/-- C5 amended: every requested symbol receives a record (never an absent
record); a symbol with a valid positive price has both metric fields
populated, while a missing-data symbol's record omits both fields,
carrying only the zero limit, zero price and error reasoning. -/
theorem every_symbol_assessed_metrics_or_error :
    ∀ (sqrtQ : ℚ → ℚ) (inp : EngineInput) (t : String), t ∈ inp.tickers →
      ∃ a, riskAnalysis sqrtQ inp t = some a ∧
        ((a.volatility_metrics.isSome ∧ a.correlation_metrics.isSome) ∨
         (a.volatility_metrics = none ∧ a.correlation_metrics = none ∧
          a = missingDataRecord)) := by
  intro sq inp t ht
  refine ⟨assess sq inp t, by unfold riskAnalysis; rw [if_pos ht], ?_⟩
  unfold assess
  rcases currentPriceEntry inp t with _ | p
  · right; exact ⟨rfl, rfl, rfl⟩
  · by_cases hp : p ≤ 0
    · simp [hp, missingDataRecord]
    · simp [hp, assessFull]

/-- Witness for C5's amended claim on `exMissing`'s well-priced symbol. -/
theorem every_symbol_assessed_metrics_or_error_witness :
    ∃ a, riskAnalysis sqrtZero exMissing "A" = some a ∧
      ((a.volatility_metrics.isSome ∧ a.correlation_metrics.isSome) ∨
       (a.volatility_metrics = none ∧ a.correlation_metrics = none ∧
        a = missingDataRecord)) :=
  every_symbol_assessed_metrics_or_error sqrtZero exMissing "A" (by simp [exMissing])

/-- C6: a requested symbol with zero price rows, or with no valid
positive current price (a recorded price ≤ 0, the guard of the limit
loop), gets an assessment with zero limit, zero price and an explicit
error marker, and every other requested symbol still receives an
assessment — the batch is never aborted. -/
theorem missing_data_isolated_failure :
    ∀ (sqrtQ : ℚ → ℚ) (inp : EngineInput) (t : String),
      t ∈ inp.tickers →
      (getPriceList inp t = [] ∨
        ∃ p, currentPriceEntry inp t = some p ∧ p ≤ 0) →
      riskAnalysis sqrtQ inp t = some missingDataRecord ∧
      missingDataRecord.remaining_position_limit = 0 ∧
      missingDataRecord.current_price = 0 ∧
      missingDataRecord.reasoning =
        Reasoning.err "Missing price data for risk calculation" ∧
      ∀ u, u ∈ inp.tickers → (riskAnalysis sqrtQ inp u).isSome := by
  intro sq inp t ht hbad
  have hrec : assess sq inp t = missingDataRecord := by
    rcases hbad with hps | ⟨p, hcp, hp⟩
    · have hcp : currentPriceEntry inp t = none := by
        unfold currentPriceEntry; rw [hps]
      unfold assess
      rw [hcp]
    · unfold assess
      rw [hcp]
      simp [hp]
  refine ⟨?_, rfl, rfl, rfl, ?_⟩
  · unfold riskAnalysis
    rw [if_pos ht, hrec]
  · intro u hu
    unfold riskAnalysis
    rw [if_pos hu]
    rfl

/-- Witness for C6 on both sides of the guard: `exMissing`'s "B" has zero
price rows, and `exNegPrice`'s "A" has a recorded current price of −5;
in each batch every requested symbol is still assessed. -/
theorem missing_data_isolated_failure_witness :
    (riskAnalysis sqrtZero exMissing "B" = some missingDataRecord ∧
     missingDataRecord.remaining_position_limit = 0 ∧
     missingDataRecord.current_price = 0 ∧
     missingDataRecord.reasoning =
       Reasoning.err "Missing price data for risk calculation" ∧
     ∀ u, u ∈ exMissing.tickers → (riskAnalysis sqrtZero exMissing u).isSome)
    ∧ (riskAnalysis sqrtZero exNegPrice "A" = some missingDataRecord ∧
     missingDataRecord.remaining_position_limit = 0 ∧
     missingDataRecord.current_price = 0 ∧
     missingDataRecord.reasoning =
       Reasoning.err "Missing price data for risk calculation" ∧
     ∀ u, u ∈ exNegPrice.tickers → (riskAnalysis sqrtZero exNegPrice u).isSome) :=
  ⟨missing_data_isolated_failure sqrtZero exMissing "B" (by simp [exMissing])
     (Or.inl (by simp [getPriceList, exMissing])),
   missing_data_isolated_failure sqrtZero exNegPrice "A" (by simp [exNegPrice])
     (Or.inr ⟨-5,
       by simp [currentPriceEntry, getPriceList, exNegPrice, lastClose],
       by norm_num⟩)⟩

/-- C9 counterexample: a PortfolioState with negative cash is not rejected
— the engine runs the ordinary computation on it and emits a fully
computed assessment whose audit trail records the negative cash. -/
theorem invalid_portfolio_not_rejected :
    exInvalid.portfolio.cash < 0 ∧
    riskAnalysis sqrtZero exInvalid "A" = some recInvalid ∧
    (∃ pv cpv b cm comb pl rem ac,
      recInvalid.reasoning = Reasoning.ok pv cpv b cm comb pl rem ac) :=
  ⟨by norm_num [exInvalid], riskAnalysis_exInvalid,
   ⟨-100, 0, 3/20, 1, 3/20, -15, -15, -100, rfl⟩⟩

/-- C9 amended: the engine performs no PortfolioState validation — an
invalid portfolio (negative cash or a negative quantity) flows through
the normal computation path: every requested ticker still gets an
assessment, and any computed assessment uses the invalid cash as-is for
the audit record and the cash cap. -/
theorem no_portfolio_validation :
    ∀ (sqrtQ : ℚ → ℚ) (inp : EngineInput) (t : String),
      (inp.portfolio.cash < 0 ∨
        ∃ tp ∈ inp.portfolio.positions, tp.2.long < 0 ∨ tp.2.short < 0) →
      t ∈ inp.tickers →
      ∃ a, riskAnalysis sqrtQ inp t = some a ∧
        ∀ pv cpv b cm comb pl rem ac,
          a.reasoning = Reasoning.ok pv cpv b cm comb pl rem ac →
          ac = inp.portfolio.cash ∧
          a.remaining_position_limit ≤ inp.portfolio.cash := by
  intro sq inp t _ ht
  have h1 : riskAnalysis sq inp t = some (assess sq inp t) := by
    unfold riskAnalysis; rw [if_pos ht]
  refine ⟨assess sq inp t, h1, ?_⟩
  intro pv cpv b cm comb pl rem ac h2
  obtain ⟨_, _, _, e4, _, e6⟩ :=
    riskAnalysis_ok_fields sq inp t _ pv cpv b cm comb pl rem ac h1 h2
  exact ⟨e4, by rw [e6, ← e4]; exact min_le_right _ _⟩

/-- Witness for C9's amended claim on the negative-cash input. -/
theorem no_portfolio_validation_witness :
    ∃ a, riskAnalysis sqrtZero exInvalid "A" = some a ∧
      ∀ pv cpv b cm comb pl rem ac,
        a.reasoning = Reasoning.ok pv cpv b cm comb pl rem ac →
        ac = exInvalid.portfolio.cash ∧
        a.remaining_position_limit ≤ exInvalid.portfolio.cash :=
  no_portfolio_validation sqrtZero exInvalid "A"
    (Or.inl (by norm_num [exInvalid])) (by simp [exInvalid])

/-- C10: a requested symbol whose price series has exactly one row is
recorded with current price 0, so the limit phase treats it exactly like
a missing-data symbol (zero limit, zero price, error reasoning), even
though a fallback volatility record was computed for it. -/
theorem single_row_price_treated_missing :
    ∀ (sqrtQ : ℚ → ℚ) (inp : EngineInput) (t : String),
      t ∈ inp.tickers → (getPriceList inp t).length = 1 →
      currentPriceEntry inp t = some 0 ∧
      riskAnalysis sqrtQ inp t = some missingDataRecord ∧
      missingDataRecord.remaining_position_limit = 0 ∧
      missingDataRecord.current_price = 0 ∧
      missingDataRecord.reasoning =
        Reasoning.err "Missing price data for risk calculation" ∧
      volatilityDataEntry sqrtQ (getPriceList inp t) =
        { daily_volatility := 5/100, annualized_volatility := 5/100 * sqrtQ 252,
          volatility_percentile := 100, data_points := 1 } := by
  intro sq inp t ht hlen
  obtain ⟨p, hps⟩ := List.length_eq_one.mp hlen
  have hcp : currentPriceEntry inp t = some 0 := by
    unfold currentPriceEntry; rw [hps]
  refine ⟨hcp, ?_, rfl, rfl, rfl, ?_⟩
  · unfold riskAnalysis assess
    rw [if_pos ht, hcp]
    norm_num [missingDataRecord]
  · rw [hps]
    rfl

/-- Witness for C10 on the single-row input `exSingle`. -/
theorem single_row_price_treated_missing_witness :
    currentPriceEntry exSingle "A" = some 0 ∧
    riskAnalysis sqrtZero exSingle "A" = some missingDataRecord ∧
    missingDataRecord.remaining_position_limit = 0 ∧
    missingDataRecord.current_price = 0 ∧
    missingDataRecord.reasoning =
      Reasoning.err "Missing price data for risk calculation" ∧
    volatilityDataEntry sqrtZero (getPriceList exSingle "A") =
      { daily_volatility := 5/100, annualized_volatility := 5/100 * sqrtZero 252,
        volatility_percentile := 100, data_points := 1 } :=
  single_row_price_treated_missing sqrtZero exSingle "A" (by simp [exSingle])
    (by simp [getPriceList, exSingle])

/-- C4: with at least 30 returns, the volatility percentile is 100 times
the fraction of 30-sample rolling standard deviations (over the entire
return history, undefined leading values dropped) that are ≤ the current
daily volatility; with 2–29 returns it is 50. -/
theorem volatility_percentile_rule :
    ∀ (sqrtQ : ℚ → ℚ) (closes : List ℚ),
      2 ≤ (pctChange closes).length →
      (30 ≤ (pctChange closes).length →
        (calculate_volatility_metrics sqrtQ closes 60).volatility_percentile =
          (((rollingWindows 30 (pctChange closes)).map (sampleStd sqrtQ)).countP
              (fun v => decide (v ≤
                (calculate_volatility_metrics sqrtQ closes 60).daily_volatility)) : ℚ)
            / (((rollingWindows 30 (pctChange closes)).map (sampleStd sqrtQ)).length : ℚ)
            * 100)
      ∧ ((pctChange closes).length < 30 →
        (calculate_volatility_metrics sqrtQ closes 60).volatility_percentile = 50) := by
  intro sq closes h2
  have hc2 : ¬ closes.length < 2 := by
    have := pctChange_length closes
    omega
  have hr2 : ¬ (pctChange closes).length < 2 := by omega
  have hdv : (calculate_volatility_metrics sq closes 60).daily_volatility =
      sampleStd sq (takeLast (min 60 (pctChange closes).length) (pctChange closes)) := by
    simp only [calculate_volatility_metrics, if_neg hc2, if_neg hr2]
  constructor
  · intro h30
    have hpos : 0 < ((rollingWindows 30 (pctChange closes)).map (sampleStd sq)).length := by
      rw [List.length_map, rollingWindows_length]
      omega
    rw [hdv]
    simp only [calculate_volatility_metrics, if_neg hc2, if_neg hr2]
    rw [if_pos h30, if_pos hpos, List.countP_eq_length_filter]
  · intro h30
    simp only [calculate_volatility_metrics, if_neg hc2, if_neg hr2]
    rw [if_neg (by omega : ¬ 30 ≤ (pctChange closes).length)]

/-- Witness for C4 on a 31-row constant series (30 returns) and a 4-row
series (3 returns). -/
theorem volatility_percentile_rule_witness :
    (calculate_volatility_metrics sqrtZero closesLong 60).volatility_percentile =
      (((rollingWindows 30 (pctChange closesLong)).map (sampleStd sqrtZero)).countP
          (fun v => decide (v ≤
            (calculate_volatility_metrics sqrtZero closesLong 60).daily_volatility)) : ℚ)
        / (((rollingWindows 30 (pctChange closesLong)).map (sampleStd sqrtZero)).length : ℚ)
        * 100
    ∧ (calculate_volatility_metrics sqrtZero closesShort 60).volatility_percentile = 50 :=
  ⟨(volatility_percentile_rule sqrtZero closesLong
      (by simp [pctChange_length, closesLong])).1
      (by simp [pctChange_length, closesLong]),
   (volatility_percentile_rule sqrtZero closesShort
      (by simp [pctChange_length, closesShort])).2
      (by simp [pctChange_length, closesShort])⟩

end AgentVest
